import Mathlib

/-!
Verification of the DC-airbnb dashboard (`app.py`) against its
natural-language specification.

The program is a Streamlit dashboard over two CSV files:
  * `listings.csv`: short-term-rental listings, cleaned (column selection,
    type conversion, null-dropping), with two derived columns
    (`estimated_revenue_365d`, `host_year`), charted as a bar chart
    (groupby aggregation per neighborhood), a bubble chart, a scatter
    chart and a strip chart;
  * `open-llm-leaderboards.csv`: model-leaderboard rows, coerced and
    null-dropped, grouped per model `Type` (mean CO₂), laid out with the
    `circlify` packing library, plus a per-month cumulative-CO₂ area chart.

This file shallowly embeds the data pipeline of `app.py`:
DataFrame columns become fields of row structures, DataFrames become
lists of rows, pandas operations become list functions, cell values that
may be NA become `Option`, and conversions that can raise
(`astype(float)` / `astype(int)`) return `Except`.  Python floats are
modelled as `Rat` (none of the verified claims depends on rounding).
-/

namespace DCAirbnb

/-! ## String parsing primitives

These model the numeric / datetime parsing the pandas library performs in
`astype(float)`, `astype(int)`, `pd.to_numeric` and `pd.to_datetime`.
A cell is modelled as the string pandas would have to parse; `none`
results model NaN/NaT. -/

/-- Numeric value of a digit-character list (the caller checks `allDigits`). -/
def digitsVal (cs : List Char) : Nat :=
  cs.foldl (fun a c => a * 10 + (c.toNat - 48)) 0

/-- Every character is a decimal digit. -/
def allDigits (cs : List Char) : Bool :=
  cs.all (·.isDigit)

/-- Split a character list on every occurrence of `sep` (the semantics of
`str.split(sep)` on a one-character separator). -/
def splitOnChar (sep : Char) : List Char → List (List Char)
  | [] => [[]]
  | c :: cs =>
    match splitOnChar sep cs, c == sep with
    | r, true => [] :: r
    | [], false => [[c]]
    | h :: t, false => (c :: h) :: t

/-- Model of Python float parsing (as used by `astype(float)` and
`pd.to_numeric`): optional sign, integer part, optional fractional part.
Unparsable strings give `none`. -/
def parseFloat? (s : String) : Option Rat :=
  let cs := s.data
  let neg := cs.head? == some '-'
  let t := if neg then cs.tail else cs
  match splitOnChar '.' t with
  | [a] =>
    if !a.isEmpty && allDigits a then
      some (if neg then -(digitsVal a : Rat) else (digitsVal a : Rat))
    else none
  | [a, b] =>
    if (!a.isEmpty || !b.isEmpty) && allDigits a && allDigits b then
      let v : Rat := (digitsVal a : Rat) + (digitsVal b : Rat) / ((10 : Rat) ^ b.length)
      some (if neg then -v else v)
    else none
  | _ => none

/-- Model of Python int parsing (as used by `astype(int)` on an object
column): optional sign and a nonempty digit string. -/
def parseInt? (s : String) : Option Int :=
  let cs := s.data
  let neg := cs.head? == some '-'
  let t := if neg then cs.tail else cs
  if !t.isEmpty && allDigits t then
    some (if neg then -(digitsVal t : Int) else (digitsVal t : Int))
  else none

/-- A calendar date (the CSV dates are `YYYY-MM-DD`). -/
structure Date where
  year : Int
  month : Nat
  day : Nat
deriving DecidableEq, Repr

/-- Model of `pd.to_datetime` on the CSV's `YYYY-MM-DD` date strings.
Unparsable strings give `none` (NaT under `errors="coerce"`). -/
def parseDate? (s : String) : Option Date :=
  match splitOnChar '-' s.data with
  | [y, m, d] =>
    if !y.isEmpty && allDigits y && !m.isEmpty && allDigits m
        && !d.isEmpty && allDigits d then
      some ⟨(digitsVal y : Int), digitsVal m, digitsVal d⟩
    else none
  | _ => none

/-- Model of `.replace('[\$,]', '', regex=True)`: delete every `$` and `,`. -/
def stripMoney (s : String) : String :=
  ⟨s.data.filter (fun c => !(c == '$' || c == ','))⟩

/-! ## Conversion steps (app.py lines 19–23 and 175–176)

Each conversion of a single cell either raises (`astype`, modelled as
`Except.error`) or is total with unparsable cells coerced to null
(`errors="coerce"`, modelled as `Except.ok none`). -/

/-- Model of `astype(float)` on one cell: raises `ValueError` on an unparsable value. -/
def astypeFloatCell (s : String) : Except String Rat :=
  match parseFloat? s with
  | some v => .ok v
  | none => .error "ValueError"

/-- Model of `astype(int)` on one cell: raises `ValueError` on an unparsable value. -/
def astypeIntCell (s : String) : Except String Int :=
  match parseInt? s with
  | some v => .ok v
  | none => .error "ValueError"

/-- Model of `pd.to_numeric(·, errors="coerce")` on one cell: never raises,
unparsable values become null. -/
def toNumericCoerceCell (s : String) : Except String (Option Rat) :=
  .ok (parseFloat? s)

/-- Model of `pd.to_datetime(·, errors="coerce")` on one cell: never raises,
unparsable values become NaT. -/
def toDatetimeCoerceCell (s : String) : Except String (Option Date) :=
  .ok (parseDate? s)

/-! ## Listings pipeline (app.py lines 14–28) -/

/-- A raw row of `listings.csv`, restricted to the ten columns selected on
line 15; every cell may be NA. -/
structure RawListing where
  host_neighbourhood : Option String
  price : Option String
  availability_365 : Option Nat
  room_type : Option String
  accommodates : Option String
  bathrooms : Option String
  beds : Option String
  host_since : Option String
  review_scores_rating : Option Rat
  host_is_superhost : Option String
deriving DecidableEq, Repr

/-- A row surviving the line-15 `dropna()`: all ten selected columns
are non-null. -/
structure SelRow where
  host_neighbourhood : String
  price : String
  availability_365 : Nat
  room_type : String
  accommodates : String
  bathrooms : String
  beds : String
  host_since : String
  review_scores_rating : Rat
  host_is_superhost : String
deriving DecidableEq, Repr

/-- Line 15: select the ten columns and drop every row with a null. -/
def selectDropna (rows : List RawListing) : List SelRow :=
  rows.filterMap fun r =>
    match r.host_neighbourhood, r.price, r.availability_365, r.room_type,
        r.accommodates, r.bathrooms, r.beds, r.host_since,
        r.review_scores_rating, r.host_is_superhost with
    | some hn, some p, some av, some rt, some ac, some ba, some be, some hs,
        some rs, some sh => some ⟨hn, p, av, rt, ac, ba, be, hs, rs, sh⟩
    | _, _, _, _, _, _, _, _, _, _ => none

/-- Line 16: `df = df[df['host_neighbourhood'] != ""]`. -/
def filterNeigh (rows : List SelRow) : List SelRow :=
  rows.filter fun r => r.host_neighbourhood != ""

/-- A row after the column conversions of lines 19–23: `price` and
`accommodates` are converted with `astype` (so a surviving frame has real
values), `beds`, `bathrooms` and `host_since` with `errors="coerce"`
(so they may be null again). -/
structure ConvRow where
  host_neighbourhood : String
  price : Rat
  availability_365 : Nat
  room_type : String
  accommodates : Int
  bathrooms : Option Rat
  beds : Option Rat
  host_since : Option Date
  review_scores_rating : Rat
  host_is_superhost : String
deriving DecidableEq, Repr

/-- Lines 19–23 on one row: `price` is stripped of `$`/`,` and converted
with `astype(float)` (raises on failure), `accommodates` with
`astype(int)` (raises on failure), `beds` and `bathrooms` with
`pd.to_numeric(errors="coerce")` and `host_since` with
`pd.to_datetime(errors="coerce")` (never raise). -/
def convertRow (r : SelRow) : Except String ConvRow :=
  match astypeFloatCell (stripMoney r.price), astypeIntCell r.accommodates with
  | .ok p, .ok a =>
    .ok ⟨r.host_neighbourhood, p, r.availability_365, r.room_type, a,
      parseFloat? r.bathrooms, parseFloat? r.beds, parseDate? r.host_since,
      r.review_scores_rating, r.host_is_superhost⟩
  | .error e, _ => .error e
  | _, .error e => .error e

/-- The conversion phase over the whole frame: any raising cell aborts the
program (pandas raises out of the column conversion). -/
def convertAll : List SelRow → Except String (List ConvRow)
  | [] => .ok []
  | r :: rs =>
    match convertRow r, convertAll rs with
    | .ok c, .ok cs => .ok (c :: cs)
    | .error e, _ => .error e
    | _, .error e => .error e

/-- Line 24: `df = df.dropna()` — drop rows where a coerced column
became null. -/
def dropnaConv (rows : List ConvRow) : List ConvRow :=
  rows.filter fun r => r.beds.isSome && r.bathrooms.isSome && r.host_since.isSome

/-- A fully cleaned listings row, lines 27–28 included. -/
structure CleanRow where
  host_neighbourhood : String
  price : Rat
  availability_365 : Nat
  room_type : String
  accommodates : Int
  bathrooms : Option Rat
  beds : Option Rat
  host_since : Option Date
  review_scores_rating : Rat
  host_is_superhost : String
  estimated_revenue_365d : Rat
  host_year : Int
deriving DecidableEq, Repr

/-- Lines 27–28: `estimated_revenue_365d = price * availability_365` and
`host_year = host_since.dt.year` (rows reaching this step have a non-null
`host_since`, dropped on line 24; the `getD` default is never used there). -/
def addDerived (r : ConvRow) : CleanRow :=
  { host_neighbourhood := r.host_neighbourhood
    price := r.price
    availability_365 := r.availability_365
    room_type := r.room_type
    accommodates := r.accommodates
    bathrooms := r.bathrooms
    beds := r.beds
    host_since := r.host_since
    review_scores_rating := r.review_scores_rating
    host_is_superhost := r.host_is_superhost
    estimated_revenue_365d := r.price * (r.availability_365 : Rat)
    host_year := (r.host_since.map Date.year).getD 0 }

/-- The whole listings cleaning pipeline, lines 14–28: column selection and
null-dropping, empty-neighbourhood filter, column conversions (which can
raise), the second `dropna()`, and the two derived columns. -/
def listingsClean (raws : List RawListing) : Except String (List CleanRow) :=
  match convertAll (filterNeigh (selectDropna raws)) with
  | .ok conv => .ok ((dropnaConv conv).map addDerived)
  | .error e => .error e

/-! ## Widget-driven filtering and the bar-chart aggregation
(app.py lines 46–76, 95–97, 116)

Widget selections (`selected_neighborhoods`, `selected_room_types`) are
parameters of the embedding. -/

/-- Line 46: `df_filtered = df[df['host_neighbourhood'].isin(selected_neighborhoods)]`. -/
def dfFiltered (df : List CleanRow) (sel : List String) : List CleanRow :=
  df.filter fun r => sel.contains r.host_neighbourhood

/-- Line 97: `df_bubble = df_filtered[df_filtered['room_type'].isin(selected_room_types)]`. -/
def dfBubble (df : List CleanRow) (sel roomSel : List String) : List CleanRow :=
  (dfFiltered df sel).filter fun r => roomSel.contains r.room_type

/-- Line 116: `df_price_plot = df_filtered[df_filtered['price'] < 1000]…`
(the three-column projection keeps whole rows here; the charts only read
the projected columns). -/
def dfPricePlot (df : List CleanRow) (sel : List String) : List CleanRow :=
  (dfFiltered df sel).filter fun r => decide (r.price < 1000)

/-- The four options of the metric selectbox (line 50). -/
inductive Metric
  | averageRevenue
  | totalRevenue
  | averagePrice
  | totalListings
deriving DecidableEq, Repr

/-- Pandas `mean`: sum divided by count (groups produced by a groupby are
nonempty, so the division is never by zero). -/
def ratMean (xs : List Rat) : Rat :=
  xs.sum / (xs.length : Rat)

/-- The groupby keys: the distinct neighbourhood values of the frame
(pandas sorts them; the ordering is irrelevant to every claim, so
first-appearance order is used). -/
def groupKeys (rows : List CleanRow) : List String :=
  (rows.map (·.host_neighbourhood)).dedup

/-- Lines 56–76: the bar-chart aggregation per metric — groupby
`host_neighbourhood`, then mean/sum of `estimated_revenue_365d`, mean of
`price`, or group size. -/
def dfGrouped (m : Metric) (rows : List CleanRow) : List (String × Rat) :=
  (groupKeys rows).map fun n =>
    let g := rows.filter fun r => r.host_neighbourhood == n
    (n, match m with
      | .averageRevenue => ratMean (g.map (·.estimated_revenue_365d))
      | .totalRevenue => (g.map (·.estimated_revenue_365d)).sum
      | .averagePrice => ratMean (g.map (·.price))
      | .totalListings => (g.length : Rat))

/-! ## The charts the program emits (C2)

Every chart handed to `st.altair_chart` is a (layered) declarative spec;
its essential kind is its Altair mark.  The program renders, in source
order: the bar chart (line 79), the listings bubble chart (line 99), the
scatter chart (line 126), the strip chart (line 145), and the combined
leaderboard chart (line 272) — itself the packed-circle bubbles
(`mark_circle`, line 220) layered with text labels (`mark_text`,
line 233) concatenated with the cumulative-CO₂ area chart (`mark_area`,
line 255). -/

/-- The Altair mark kinds occurring in app.py. -/
inductive Mark
  | bar
  | circle
  | tick
  | text
  | area
deriving DecidableEq, Repr

/-- One chart given to `st.altair_chart`, as its list of layer marks. -/
structure ChartSpec where
  name : String
  marks : List Mark
deriving DecidableEq, Repr

/-- The five `st.altair_chart` calls of app.py, in order, with the marks
of each (a layered/concatenated chart lists every component mark). -/
def emittedCharts : List ChartSpec :=
  [⟨"bar_chart", [.bar]⟩,
   ⟨"bubble_chart", [.circle]⟩,
   ⟨"scatter_chart", [.circle]⟩,
   ⟨"strip_chart", [.tick]⟩,
   ⟨"combined_chart", [.circle, .text, .area]⟩]

/-- All marks the program emits. -/
def emittedMarks : List Mark :=
  (emittedCharts.map ChartSpec.marks).flatten

/-- The marks of the chart kinds the specification names: bar charts are
`mark_bar`, bubble/scatter and packed-circle charts are `mark_circle`,
strip charts are `mark_tick`. -/
def specMarks : List Mark :=
  [.bar, .circle, .tick]

/-! ## Circlify layout (app.py lines 195–208, C4)

`circlify` is a third-party library; its output is an opaque list of
circles (one per input datum).  The embedding takes that list as given
and models what app.py does with it: the list comprehension of lines
202–208 building `layout_df`. -/

/-- A circle returned by `circlify.circlify`. -/
structure CCircle where
  x : Rat
  y : Rat
  r : Rat
deriving DecidableEq, Repr

/-- A row of the `layout_df` built on lines 202–208. -/
structure LayoutRow where
  x : Rat
  y : Rat
  r : Rat
  type : String
  co2 : Rat
deriving DecidableEq, Repr

/-- The body of the list comprehension of lines 202–208, iterating
`for i, c in enumerate(circles)` with running index `i`; `grouped.iloc[i]`
raises `IndexError` past the end of `grouped`. -/
def buildLayoutAux (grouped : List (String × Rat)) :
    Nat → List CCircle → Except String (List LayoutRow)
  | _, [] => .ok []
  | i, c :: cs =>
    match grouped.get? i, buildLayoutAux grouped (i + 1) cs with
    | some g, .ok rest =>
      .ok (⟨c.x * 500, c.y * 500, c.r * 500, g.1, g.2⟩ :: rest)
    | none, _ => .error "IndexError"
    | some _, .error e => .error e

/-- Lines 202–208: `layout_df = pd.DataFrame([{x: c.x*500, y: c.y*500,
r: c.r*500, Type: grouped.iloc[i]["Type"],
CO₂ cost (kg): grouped.iloc[i]["CO₂ cost (kg)"]}
for i, c in enumerate(circles)])`. -/
def buildLayout (grouped : List (String × Rat)) (circles : List CCircle) :
    Except String (List LayoutRow) :=
  buildLayoutAux grouped 0 circles

/-! ## Leaderboard pipeline (app.py lines 169–249) -/

/-- A raw row of `open-llm-leaderboards.csv`, restricted to the columns
the program reads; every cell may be NA. -/
structure RawLB where
  type : Option String
  co2 : Option String
  upload : Option String
deriving DecidableEq, Repr

/-- A leaderboard row surviving lines 175–177: coercion of
`CO₂ cost (kg)` and `Upload To Hub Date` followed by
`dropna(subset=["CO₂ cost (kg)", "Upload To Hub Date", "Type"])`. -/
structure LBRow where
  type : String
  co2 : Rat
  upload : Date
deriving DecidableEq, Repr

/-- Lines 175–177: coerce the two columns (unparsable → null, never
raising) and drop rows null in any of the three subset columns. -/
def lbClean (rows : List RawLB) : List LBRow :=
  rows.filterMap fun r =>
    match r.type, r.co2.bind parseFloat?, r.upload.bind parseDate? with
    | some t, some v, some d => some ⟨t, v, d⟩
    | _, _, _ => none

/-- Line 180: `grouped = df.groupby("Type", as_index=False)["CO₂ cost (kg)"].mean()`. -/
def lbGrouped (rows : List RawLB) : List (String × Rat) :=
  (((lbClean rows).map (·.type)).dedup).map fun t =>
    (t, ratMean (((lbClean rows).filter fun r => r.type == t).map (·.co2)))

/-- The float64 value of `np.pi` as an exact rational (its numeric value
is irrelevant to the claims about line 182). -/
def npPi : Rat := 884279719003555 / 281474976710656

/-- Line 182: `angle_step = 2 * np.pi / len(grouped)` — a Python
float/int division, which raises `ZeroDivisionError` when the divisor
is zero. -/
def angleStep (rows : List RawLB) : Except String Rat :=
  if (lbGrouped rows).length = 0 then .error "ZeroDivisionError"
  else .ok (2 * npPi / ((lbGrouped rows).length : Rat))

/-! ## Monthly cumulative CO₂ (app.py lines 247–249, C10) -/

/-- Line 247: `df["Month"] = df["Upload To Hub Date"].dt.to_period("M")
.dt.to_timestamp()` — the month, linearized so that the calendar order of
month timestamps is the order of the integers. -/
def monthOf (d : Date) : Int :=
  d.year * 12 + (d.month : Int)

/-- A row of the `monthly` frame of line 248. -/
structure MRow where
  month : Int
  type : String
  co2 : Rat
deriving DecidableEq, Repr

/-- The `(Month, Type)` key of a `monthly` row. -/
def mkey (e : MRow) : Int × String := (e.month, e.type)

/-- Line 248: `monthly = df.groupby(["Month", "Type"])["CO₂ cost (kg)"]
.sum().reset_index()` — one row per distinct `(Month, Type)` key holding
that group's sum (pandas sorts the keys; ordering is irrelevant to the
claims, so first-appearance order is used). -/
def monthlySum (rows : List RawLB) : List MRow :=
  (((lbClean rows).map fun r => (monthOf r.upload, r.type)).dedup).map fun k =>
    ⟨k.1, k.2,
      (((lbClean rows).filter fun r =>
        (monthOf r.upload, r.type) == k).map (·.co2)).sum⟩

/-- The ordering used by `monthly.sort_values("Month")`. -/
def monthLE (a b : MRow) : Prop := a.month ≤ b.month

instance : DecidableRel monthLE :=
  fun a b => inferInstanceAs (Decidable (a.month ≤ b.month))

instance : IsTotal MRow monthLE := ⟨fun a b => Int.le_total a.month b.month⟩

instance : IsTrans MRow monthLE :=
  ⟨fun _ _ _ hab hbc => le_trans hab hbc⟩

/-- Line 249's `monthly.sort_values("Month")`: sort the frame by month
(pandas's default quicksort is modelled by any by-month sort; no claim
depends on the order of rows with equal months). -/
def sortByMonth (l : List MRow) : List MRow :=
  l.insertionSort monthLE

/-- Grouped cumulative sum, the semantics of
`.groupby("Type")["CO₂ cost (kg)"].cumsum()`: each row is paired with the
sum of the values of its own group among the rows processed so far
(`pre`), itself included. -/
def cumsumByType (pre : List MRow) : List MRow → List (MRow × Rat)
  | [] => []
  | e :: rest =>
    (e, (((pre ++ [e]).filter fun x => x.type == e.type).map (·.co2)).sum)
      :: cumsumByType (pre ++ [e]) rest

/-- Line 249: `monthly["Cumulative CO₂"] = monthly.sort_values("Month")
.groupby("Type")["CO₂ cost (kg)"].cumsum()` — each `monthly` row paired
with its cumulative value (pandas aligns the result back onto `monthly`
by index; the pairing is the same mapping). -/
def leaderboardCumulative (rows : List RawLB) : List (MRow × Rat) :=
  cumsumByType [] (sortByMonth (monthlySum rows))

/-! ## Derived columns (C8)

The spec counts the derived columns the program computes over the loaded
CSV data.  Each pandas column assignment `frame["col"] = …` in app.py, in
source order (lines 27, 28, 186, 187, 188, 190, 191, 192, 213, 214, 247,
249; `layout_df` is rebuilt from scratch on line 202, so `Size` and
`CO₂ Rounded` are assigned twice). -/

/-- Every derived-column assignment of app.py as a `(frame, column)` pair. -/
def derivedColumnAssignments : List (String × String) :=
  [("df", "estimated_revenue_365d"),
   ("df", "host_year"),
   ("layout_df", "angle"),
   ("layout_df", "x"),
   ("layout_df", "y"),
   ("layout_df", "r"),
   ("layout_df", "Size"),
   ("layout_df", "CO₂ Rounded"),
   ("layout_df", "Size"),
   ("layout_df", "CO₂ Rounded"),
   ("df", "Month"),
   ("monthly", "Cumulative CO₂")]

/-- The cleaned-frame invariant of C7: the three columns that the
coercions of lines 21–23 can null out are non-null, and the
neighbourhood is not the empty string.  (The remaining seven selected
columns are non-null by construction of `SelRow`: the line-15 `dropna()`
already removed their nulls, and no later step can null them.) -/
def rowNonNull (r : CleanRow) : Prop :=
  r.beds.isSome = true ∧ r.bathrooms.isSome = true ∧
    r.host_since.isSome = true ∧ r.host_neighbourhood ≠ ""

/-! ## Sample data used by witnesses -/

/-- A well-formed raw listings row. -/
def sampleRaw : RawListing :=
  ⟨some "Dupont Circle", some "$1,250.00", some 120, some "Entire home/apt",
   some "4", some "1.5", some "2", some "2019-05-04", some 4.8, some "t"⟩

/-- The cleaned row the pipeline produces from `sampleRaw`. -/
def sampleClean : CleanRow :=
  ⟨"Dupont Circle", 1250, 120, "Entire home/apt", 4,
   some 1.5, some 2, some ⟨2019, 5, 4⟩, 4.8, "t", 150000, 2019⟩

/-- A raw listings row whose `price` cell is unparsable. -/
def badRaw : RawListing :=
  ⟨some "Dupont Circle", some "abc", some 120, some "Entire home/apt",
   some "4", some "1.5", some "2", some "2019-05-04", some 4.8, some "t"⟩

/-- A well-formed raw leaderboard row. -/
def sampleLB : RawLB := ⟨some "chat", some "10.5", some "2024-01-15"⟩

/-- A second raw leaderboard row (another type, a later month). -/
def sampleLB2 : RawLB := ⟨some "base", some "3", some "2024-02-01"⟩

/-- A third raw leaderboard row (same type as `sampleLB`, a later month). -/
def sampleLB3 : RawLB := ⟨some "chat", some "2", some "2024-02-20"⟩

/-! ## Helper lemmas -/

/-- Unfolding a successful run of the listings pipeline. -/
theorem listingsClean_ok {raws : List RawListing} {df : List CleanRow}
    (h : listingsClean raws = .ok df) :
    ∃ conv, convertAll (filterNeigh (selectDropna raws)) = .ok conv ∧
      df = (dropnaConv conv).map addDerived := by
  unfold listingsClean at h
  cases hc : convertAll (filterNeigh (selectDropna raws)) with
  | ok conv =>
    rw [hc] at h
    refine ⟨conv, rfl, ?_⟩
    injection h with h
    exact h.symm
  | error e => rw [hc] at h; cases h

/-- Evaluation of the whole pipeline on the sample row. -/
theorem sample_pipeline : listingsClean [sampleRaw] = Except.ok [sampleClean] := by
  simp [listingsClean, selectDropna, filterNeigh, convertAll, convertRow,
    astypeFloatCell, astypeIntCell, stripMoney, parseFloat?, parseInt?, parseDate?,
    splitOnChar, allDigits, digitsVal, dropnaConv, addDerived, sampleClean, sampleRaw]
  norm_num

/-! ## C2 — the set of chart kinds emitted -/

/-- C2, counterexample: the program emits an area chart (`mark_area`,
line 255, rendered through `combined_chart` on line 278), which is not
among the chart kinds bar / bubble–scatter / strip / packed-circle that
the claim says are the only ones emitted. -/
theorem c2_area_chart_also_emitted :
    Mark.area ∈ emittedMarks ∧ Mark.area ∉ specMarks := by decide

/-- C2, amended: the marks the program emits are exactly bar (bar chart),
circle (bubble, scatter and packed-circle charts), tick (strip chart),
text (packed-circle labels) and area (cumulative-CO₂ area chart) — each
of the claimed kinds is emitted, but so is an area chart (with its text
label layer). -/
theorem c2_emitted_mark_kinds :
    emittedMarks.toFinset = {Mark.bar, Mark.circle, Mark.tick, Mark.text, Mark.area} := by
  decide

/-! ## C3 — estimated revenue -/

/-- C3: for every row of the cleaned listings data,
`estimated_revenue_365d` equals `price` times `availability_365`
(app.py line 27). -/
theorem c3_estimated_revenue (raws : List RawListing) (df : List CleanRow)
    (h : listingsClean raws = .ok df) :
    ∀ r ∈ df, r.estimated_revenue_365d = r.price * (r.availability_365 : Rat) := by
  obtain ⟨conv, _, hdf⟩ := listingsClean_ok h
  subst hdf
  intro r hr
  obtain ⟨c, _, rfl⟩ := List.mem_map.mp hr
  rfl

/-- C3, witness: the sample pipeline run satisfies the revenue equation. -/
theorem c3_witness :
    sampleClean.estimated_revenue_365d = sampleClean.price * (sampleClean.availability_365 : Rat) :=
  c3_estimated_revenue [sampleRaw] [sampleClean] sample_pipeline sampleClean
    (List.mem_singleton.mpr rfl)

/-! ## C6 — host year -/

/-- C6: for every row of the cleaned listings data, `host_year` is the
calendar year of that row's (non-null) `host_since` date (app.py
line 28). -/
theorem c6_host_year (raws : List RawListing) (df : List CleanRow)
    (h : listingsClean raws = .ok df) :
    ∀ r ∈ df, ∃ d, r.host_since = some d ∧ r.host_year = d.year := by
  obtain ⟨conv, _, hdf⟩ := listingsClean_ok h
  subst hdf
  intro r hr
  obtain ⟨c, hc, rfl⟩ := List.mem_map.mp hr
  have hmem := List.mem_filter.mp hc
  have hsome : c.host_since.isSome := by
    have := hmem.2
    simp only [Bool.and_eq_true] at this
    exact this.2
  obtain ⟨d, hd⟩ := Option.isSome_iff_exists.mp hsome
  exact ⟨d, hd, by simp [addDerived, hd]⟩

/-- C6, witness: the sample pipeline run satisfies the host-year
extraction. -/
theorem c6_witness :
    ∃ d, sampleClean.host_since = some d ∧ sampleClean.host_year = d.year :=
  c6_host_year [sampleRaw] [sampleClean] sample_pipeline sampleClean
    (List.mem_singleton.mpr rfl)

/-! ## C8 — number of derived columns -/

/-- C8, counterexample: the program does not compute exactly five derived
columns — it performs twelve derived-column assignments, over ten
distinct column names, so the count is five under no reading. -/
theorem c8_not_five_derived_columns :
    derivedColumnAssignments.length ≠ 5 ∧
    ((derivedColumnAssignments.map Prod.snd).dedup).length ≠ 5 := by decide

/-- C8, amended: the program computes twelve derived-column assignments
(lines 27, 28, 186–192, 213, 214, 247, 249) over ten distinct column
names before emitting its chart parameterizations. -/
theorem c8_derived_column_count :
    derivedColumnAssignments.length = 12 ∧
    ((derivedColumnAssignments.map Prod.snd).dedup).length = 10 := by decide

/-! ## C1 — conversion error behaviour -/

/-- A single row's conversion succeeds exactly when its `price` (after
stripping `$` and `,`) parses as a float and its `accommodates` parses
as an integer. -/
theorem convertRow_ok_iff (r : SelRow) :
    (∃ c, convertRow r = .ok c) ↔
      (parseFloat? (stripMoney r.price)).isSome = true ∧
      (parseInt? r.accommodates).isSome = true := by
  unfold convertRow astypeFloatCell astypeIntCell
  cases hp : parseFloat? (stripMoney r.price) <;>
    cases ha : parseInt? r.accommodates <;> simp

/-- The conversion phase succeeds exactly when every row's conversion
succeeds. -/
theorem convertAll_ok_iff (rows : List SelRow) :
    (∃ out, convertAll rows = .ok out) ↔ ∀ r ∈ rows, ∃ c, convertRow r = .ok c := by
  induction rows with
  | nil => simp [convertAll]
  | cons r rs ih =>
    constructor
    · rintro ⟨out, hout⟩ s hs
      cases hr : convertRow r with
      | error e => simp [convertAll, hr] at hout
      | ok c =>
        cases hrs : convertAll rs with
        | error e => simp [convertAll, hr, hrs] at hout
        | ok cs =>
          rcases List.mem_cons.mp hs with rfl | hs'
          · exact ⟨c, hr⟩
          · exact ih.mp ⟨cs, hrs⟩ s hs'
    · intro hall
      obtain ⟨c, hc⟩ := hall r (List.mem_cons_self r rs)
      obtain ⟨cs, hcs⟩ := ih.mpr fun s hs => hall s (List.mem_cons_of_mem r hs)
      exact ⟨c :: cs, by simp [convertAll, hc, hcs]⟩

/-- C1, counterexample: an unparsable `price` value makes the conversion
phase raise (`astype(float)` on line 19 has no `errors="coerce"`), so the
listings pipeline errors out instead of coercing the value to null. -/
theorem c1_astype_raises_on_malformed :
    listingsClean [badRaw] = Except.error "ValueError" := by
  simp [listingsClean, selectDropna, filterNeigh, convertAll, convertRow,
    astypeFloatCell, astypeIntCell, stripMoney, parseFloat?, parseInt?,
    splitOnChar, allDigits, badRaw]

/-- C1, amended: the conversions performed with `errors="coerce"`
(`beds`, `bathrooms`, `host_since`, `CO₂ cost (kg)`,
`Upload To Hub Date`) never raise — they turn unparsable values into
null — but the `price` and `accommodates` conversions use `astype`,
which raises on unparsable values: the listings conversion phase
succeeds precisely when every row's `price` (after removing `$` and `,`)
parses as a float and every `accommodates` value parses as an integer. -/
theorem c1_coerce_vs_astype (rows : List SelRow) :
    ((∃ out, convertAll rows = .ok out) ↔
      ∀ r ∈ rows, (parseFloat? (stripMoney r.price)).isSome = true ∧
        (parseInt? r.accommodates).isSome = true)
  ∧ (∀ s, toNumericCoerceCell s = .ok (parseFloat? s))
  ∧ (∀ s, toDatetimeCoerceCell s = .ok (parseDate? s)) := by
  refine ⟨?_, fun _ => rfl, fun _ => rfl⟩
  rw [convertAll_ok_iff]
  exact forall₂_congr fun r _ => convertRow_ok_iff r

/-- C1, witness: the amended equivalence applied to a concrete
convertible row. -/
theorem c1_witness :
    ∃ out, convertAll [⟨"Dupont Circle", "$1,250.00", 120, "Entire home/apt",
      "4", "1.5", "2", "2019-05-04", 4.8, "t"⟩] = .ok out :=
  (c1_coerce_vs_astype _).1.mpr (by
    intro r hr
    simp only [List.mem_singleton] at hr
    subst hr
    constructor <;> rfl)

/-! ## C4 — circlify layout scaled uniformly by 500 -/

/-- The comprehension starting at index `i` consumes `circles` against
the tail of `grouped`, scaling every circle by 500. -/
theorem buildLayoutAux_eq (grouped : List (String × Rat)) :
    ∀ (circles : List CCircle) (i : Nat), i + circles.length ≤ grouped.length →
      buildLayoutAux grouped i circles =
        .ok ((circles.zip (grouped.drop i)).map fun p =>
          ⟨p.1.x * 500, p.1.y * 500, p.1.r * 500, p.2.1, p.2.2⟩) := by
  intro circles
  induction circles with
  | nil => intro i _; rfl
  | cons c cs ih =>
    intro i hle
    have hi : i < grouped.length := by simp at hle; omega
    have hget : grouped.get? i = some (grouped.get ⟨i, hi⟩) := List.get?_eq_get hi
    have hdrop : grouped.drop i = grouped.get ⟨i, hi⟩ :: grouped.drop (i + 1) :=
      List.drop_eq_get_cons hi
    have hrec := ih (i + 1) (by simp at hle ⊢; omega)
    unfold buildLayoutAux
    rw [hget, hrec, hdrop]
    rfl

/-- C4: when `circlify` returns one circle per row of `grouped` (which it
does), the `layout_df` built on lines 202–208 pairs each circle with its
`grouped` row and sets `x`, `y` and `r` to the circle's `x`, `y` and `r`
each scaled by the same uniform factor 500, with no other transformation
of positions or radii (the `Size` and `CO₂ Rounded` columns added on
lines 213–214 are separate columns; `x`, `y`, `r` are used unchanged by
the chart encodings). -/
theorem c4_layout_scaled (grouped : List (String × Rat)) (circles : List CCircle)
    (hlen : circles.length = grouped.length) :
    buildLayout grouped circles =
      .ok ((circles.zip grouped).map fun p =>
        ⟨p.1.x * 500, p.1.y * 500, p.1.r * 500, p.2.1, p.2.2⟩) := by
  have h := buildLayoutAux_eq grouped circles 0 (by omega)
  simpa [buildLayout] using h

/-- C4, witness: the unit circle at the origin with one grouped row is
laid out at `(500, 0)` with radius 500. -/
theorem c4_witness :
    buildLayout [("chat", 10)] [⟨1, 0, 1⟩] = .ok [⟨500, 0, 500, "chat", 10⟩] := by
  rw [c4_layout_scaled [("chat", 10)] [⟨1, 0, 1⟩] rfl]
  norm_num

/-! ## C5 — bar-chart aggregation -/

/-- C5: every `(neighbourhood, value)` pair of the bar-chart data is the
claimed groupby aggregate of the filtered rows: sum of
`estimated_revenue_365d` under Total Revenue, its mean under Average
Revenue, the mean `price` under Average Price, and the row count under
Total Listings. -/
theorem c5_bar_aggregation (rows : List CleanRow) (m : Metric) (n : String) (v : Rat)
    (h : (n, v) ∈ dfGrouped m rows) :
    (m = .totalRevenue →
      v = ((rows.filter fun r => r.host_neighbourhood == n).map
        (·.estimated_revenue_365d)).sum)
  ∧ (m = .averageRevenue →
      v = ((rows.filter fun r => r.host_neighbourhood == n).map
          (·.estimated_revenue_365d)).sum
        / ((rows.filter fun r => r.host_neighbourhood == n).length : Rat))
  ∧ (m = .averagePrice →
      v = ((rows.filter fun r => r.host_neighbourhood == n).map (·.price)).sum
        / ((rows.filter fun r => r.host_neighbourhood == n).length : Rat))
  ∧ (m = .totalListings →
      v = ((rows.filter fun r => r.host_neighbourhood == n).length : Rat)) := by
  simp only [dfGrouped] at h
  obtain ⟨k, hk, heq⟩ := List.mem_map.mp h
  injection heq with h1 h2
  subst h1
  subst h2
  cases m <;> simp [ratMean]

/-- C5, witness: the Total Revenue aggregation on the sample row. -/
theorem c5_witness :
    (Metric.totalRevenue = .totalRevenue →
      (150000 : Rat) = (([sampleClean].filter fun r =>
        r.host_neighbourhood == "Dupont Circle").map (·.estimated_revenue_365d)).sum)
  ∧ (Metric.totalRevenue = .averageRevenue →
      (150000 : Rat) = (([sampleClean].filter fun r =>
          r.host_neighbourhood == "Dupont Circle").map (·.estimated_revenue_365d)).sum
        / (([sampleClean].filter fun r =>
          r.host_neighbourhood == "Dupont Circle").length : Rat))
  ∧ (Metric.totalRevenue = .averagePrice →
      (150000 : Rat) = (([sampleClean].filter fun r =>
          r.host_neighbourhood == "Dupont Circle").map (·.price)).sum
        / (([sampleClean].filter fun r =>
          r.host_neighbourhood == "Dupont Circle").length : Rat))
  ∧ (Metric.totalRevenue = .totalListings →
      (150000 : Rat) = (([sampleClean].filter fun r =>
        r.host_neighbourhood == "Dupont Circle").length : Rat)) :=
  c5_bar_aggregation [sampleClean] .totalRevenue "Dupont Circle" 150000 (by
    simp [dfGrouped, groupKeys, sampleClean, ratMean])

/-! ## C7 — the non-null invariant and its preservation -/

/-- Every converted row comes from a selected row. -/
theorem convertAll_mem {rows : List SelRow} {out : List ConvRow}
    (h : convertAll rows = .ok out) :
    ∀ c ∈ out, ∃ s ∈ rows, convertRow s = .ok c := by
  induction rows generalizing out with
  | nil =>
    simp only [convertAll] at h
    injection h with h
    subst h
    simp
  | cons r rs ih =>
    cases hr : convertRow r with
    | error e => simp [convertAll, hr] at h
    | ok c =>
      cases hrs : convertAll rs with
      | error e => simp [convertAll, hr, hrs] at h
      | ok cs =>
        simp only [convertAll, hr, hrs] at h
        injection h with h
        subst h
        intro x hx
        rcases List.mem_cons.mp hx with rfl | hx'
        · exact ⟨r, List.mem_cons_self r rs, hr⟩
        · obtain ⟨s, hs, hc⟩ := ih hrs x hx'
          exact ⟨s, List.mem_cons_of_mem r hs, hc⟩

/-- Conversion does not touch the neighbourhood column. -/
theorem convertRow_neigh {s : SelRow} {c : ConvRow}
    (h : convertRow s = .ok c) : c.host_neighbourhood = s.host_neighbourhood := by
  unfold convertRow at h
  cases hp : astypeFloatCell (stripMoney s.price) with
  | error e =>
    cases ha : astypeIntCell s.accommodates <;> rw [hp, ha] at h <;> cases h
  | ok p =>
    cases ha : astypeIntCell s.accommodates with
    | error e => rw [hp, ha] at h; cases h
    | ok a =>
      rw [hp, ha] at h
      injection h with h
      rw [← h]

/-- Every cleaned row satisfies the invariant. -/
theorem listingsClean_rowNonNull {raws : List RawListing} {df : List CleanRow}
    (h : listingsClean raws = .ok df) : ∀ r ∈ df, rowNonNull r := by
  obtain ⟨conv, hconv, hdf⟩ := listingsClean_ok h
  subst hdf
  intro r hr
  obtain ⟨c, hc, rfl⟩ := List.mem_map.mp hr
  have hf := List.mem_filter.mp hc
  have hconds := hf.2
  simp only [Bool.and_eq_true] at hconds
  obtain ⟨⟨hb, hba⟩, hhs⟩ := hconds
  obtain ⟨s, hs, hrow⟩ := convertAll_mem hconv c hf.1
  have hneigh : s.host_neighbourhood ≠ "" := by
    have hmem := List.mem_filter.mp hs
    simpa [bne_iff_ne] using hmem.2
  refine ⟨hb, hba, hhs, ?_⟩
  show c.host_neighbourhood ≠ ""
  rw [convertRow_neigh hrow]
  exact hneigh

/-- C7: after cleaning, every listings row has non-null values in the
selected columns (the seven never-coerced ones by construction, the three
coerced ones by the line-24 `dropna()`) and a non-empty neighbourhood;
the invariant survives the neighbourhood filter, the room-type filter,
the price filter, and grouping (whose keys are neighbourhoods of
surviving rows). -/
theorem c7_invariant_preserved (raws : List RawListing) (sel roomSel : List String)
    (df : List CleanRow) (h : listingsClean raws = .ok df) :
    (∀ r ∈ df, rowNonNull r)
  ∧ (∀ r ∈ dfFiltered df sel, rowNonNull r)
  ∧ (∀ r ∈ dfBubble df sel roomSel, rowNonNull r)
  ∧ (∀ r ∈ dfPricePlot df sel, rowNonNull r)
  ∧ (∀ m : Metric, ∀ p ∈ dfGrouped m (dfFiltered df sel), p.1 ≠ "") := by
  have base := listingsClean_rowNonNull h
  have hfil : ∀ r ∈ dfFiltered df sel, rowNonNull r := by
    intro r hr
    exact base r (List.mem_filter.mp hr).1
  refine ⟨base, hfil, ?_, ?_, ?_⟩
  · intro r hr
    exact hfil r (List.mem_filter.mp hr).1
  · intro r hr
    exact hfil r (List.mem_filter.mp hr).1
  · intro m p hp
    obtain ⟨pn, pv⟩ := p
    simp only [dfGrouped] at hp
    obtain ⟨k, hk, heq⟩ := List.mem_map.mp hp
    have hk' : k ∈ groupKeys (dfFiltered df sel) := hk
    simp only [groupKeys] at hk'
    obtain ⟨r, hr, hrk⟩ := List.mem_map.mp (List.mem_dedup.mp hk')
    have hne : r.host_neighbourhood ≠ "" := (hfil r hr).2.2.2
    injection heq with h1 _
    show pn ≠ ""
    rw [← h1, ← hrk]
    exact hne

/-- C7, witness: the invariant on a concrete pipeline run with concrete
widget selections. -/
theorem c7_witness :
    (∀ r ∈ [sampleClean], rowNonNull r)
  ∧ (∀ r ∈ dfFiltered [sampleClean] ["Dupont Circle"], rowNonNull r)
  ∧ (∀ r ∈ dfBubble [sampleClean] ["Dupont Circle"] ["Entire home/apt"], rowNonNull r)
  ∧ (∀ r ∈ dfPricePlot [sampleClean] ["Dupont Circle"], rowNonNull r)
  ∧ (∀ m : Metric, ∀ p ∈ dfGrouped m (dfFiltered [sampleClean] ["Dupont Circle"]),
      p.1 ≠ "") :=
  c7_invariant_preserved [sampleRaw] ["Dupont Circle"] ["Entire home/apt"]
    [sampleClean] sample_pipeline

/-! ## C9 — division by zero on an empty leaderboard -/

/-- C9: if no valid leaderboard row survives the null-dropping, the
angle-step computation of line 182 divides `2 * np.pi` by zero and the
program raises `ZeroDivisionError`; with at least one valid row it
succeeds. -/
theorem c9_angle_step (rows : List RawLB) :
    (lbClean rows = [] → angleStep rows = .error "ZeroDivisionError")
  ∧ (lbClean rows ≠ [] → ∃ v, angleStep rows = .ok v) := by
  constructor
  · intro h
    have hg : lbGrouped rows = [] := by simp [lbGrouped, h]
    simp [angleStep, hg]
  · intro h
    have hne : lbGrouped rows ≠ [] := by
      simp only [lbGrouped, ne_eq, List.map_eq_nil_iff, List.dedup_eq_nil]
      exact h
    have hg : (lbGrouped rows).length ≠ 0 := by
      intro h0
      exact hne (List.length_eq_zero.mp h0)
    refine ⟨2 * npPi / ((lbGrouped rows).length : Rat), ?_⟩
    simp [angleStep, hg]

/-- C9, witness: the empty leaderboard raises, a one-row leaderboard
succeeds. -/
theorem c9_witness :
    angleStep [] = .error "ZeroDivisionError" ∧ ∃ v, angleStep [sampleLB] = .ok v :=
  ⟨(c9_angle_step []).1 rfl,
   (c9_angle_step [sampleLB]).2 (by
     simp [lbClean, sampleLB, parseFloat?, parseDate?, splitOnChar, allDigits])⟩

/-! ## C10 — cumulative CO₂ is a per-type prefix sum -/

/-- The grouped running sum, evaluated over a by-month-sorted frame with
distinct `(Month, Type)` keys, assigns each row the sum of its type's
values over all rows of month at most its own. -/
theorem cumsumByType_eq (rest : List MRow) :
    ∀ (pre l : List MRow), l = pre ++ rest →
      l.Pairwise monthLE → (l.map mkey).Nodup →
      ∀ p ∈ cumsumByType pre rest,
        p.2 = ((l.filter fun x =>
          x.type == p.1.type && decide (x.month ≤ p.1.month)).map (·.co2)).sum := by
  induction rest with
  | nil =>
    intro pre l _ _ _ p hp
    simp [cumsumByType] at hp
  | cons e rest ih =>
    intro pre l hl hsort hnd p hp
    subst hl
    rcases List.mem_cons.mp hp with rfl | hp'
    · simp only
      have hsplit := List.pairwise_append.mp hsort
      have hxle : ∀ x ∈ pre ++ [e], x.month ≤ e.month := by
        intro x hx
        rcases List.mem_append.mp hx with hx | hx
        · exact hsplit.2.2 x hx e (List.mem_cons_self e rest)
        · rw [List.mem_singleton.mp hx]
      have hrest : rest.filter
          (fun x => x.type == e.type && decide (x.month ≤ e.month)) = [] := by
        rw [List.filter_eq_nil_iff]
        intro x hx hcontra
        simp only [Bool.and_eq_true, beq_iff_eq, decide_eq_true_eq] at hcontra
        obtain ⟨hty, hle⟩ := hcontra
        have hge : e.month ≤ x.month := (List.pairwise_cons.mp hsplit.2.1).1 x hx
        have hkey : mkey x = mkey e := by
          simp [mkey, hty, le_antisymm hle hge]
        have hnd' := hnd
        rw [List.map_append, List.map_cons] at hnd'
        have hes : mkey e ∉ rest.map mkey :=
          (List.nodup_cons.mp (List.nodup_append.mp hnd').2.1).1
        exact hes (hkey ▸ List.mem_map_of_mem mkey hx)
      have hassoc : pre ++ e :: rest = (pre ++ [e]) ++ rest := by simp
      have hR : ((pre ++ [e]) ++ rest).filter
            (fun x => x.type == e.type && decide (x.month ≤ e.month)) =
          (pre ++ [e]).filter (fun x => x.type == e.type) := by
        rw [List.filter_append, hrest, List.append_nil]
        exact List.filter_congr fun x hx => by simp [hxle x hx]
      rw [hassoc, hR]
    · exact ih (pre ++ [e]) (pre ++ e :: rest) (by simp) hsort hnd p hp'

/-- The `(Month, Type)` keys of the grouped monthly frame are distinct. -/
theorem monthlySum_nodup_keys (rows : List RawLB) :
    ((monthlySum rows).map mkey).Nodup := by
  unfold monthlySum
  rw [List.map_map]
  apply List.Nodup.map_on ?_ (List.nodup_dedup _)
  intro x _ y _ hxy
  simpa [mkey] using hxy

/-- C10: each `Cumulative CO₂` value of the `monthly` frame at a
`(Month, Type)` row equals the sum of that Type's per-month totals over
all months up to and including that row's month. -/
theorem c10_cumulative_prefix_sum (rows : List RawLB) :
    ∀ p ∈ leaderboardCumulative rows,
      p.2 = (((monthlySum rows).filter fun x =>
        x.type == p.1.type && decide (x.month ≤ p.1.month)).map (·.co2)).sum := by
  intro p hp
  have hperm : List.Perm (sortByMonth (monthlySum rows)) (monthlySum rows) :=
    List.perm_insertionSort _ _
  have hsort : (sortByMonth (monthlySum rows)).Pairwise monthLE :=
    List.sorted_insertionSort _ _
  have hnd : ((sortByMonth (monthlySum rows)).map mkey).Nodup :=
    (List.Perm.nodup_iff (hperm.map mkey)).mpr (monthlySum_nodup_keys rows)
  have heq := cumsumByType_eq (sortByMonth (monthlySum rows)) ([] : List MRow)
    (sortByMonth (monthlySum rows)) rfl hsort hnd p hp
  rw [heq]
  exact List.Perm.sum_eq ((hperm.filter _).map _)

/-- C10, witness: the one-row leaderboard's single monthly entry carries
its own sum as cumulative value. -/
theorem c10_witness :
    ((⟨24289, "chat", 10.5⟩ : MRow), (10.5 : Rat)).2 =
      (((monthlySum [sampleLB]).filter fun x =>
        x.type == (⟨24289, "chat", (10.5 : Rat)⟩ : MRow).type &&
          decide (x.month ≤ (⟨24289, "chat", (10.5 : Rat)⟩ : MRow).month)).map
        (·.co2)).sum :=
  c10_cumulative_prefix_sum [sampleLB] (⟨24289, "chat", 10.5⟩, (10.5 : Rat)) (by
    simp [leaderboardCumulative, sortByMonth, cumsumByType, monthlySum, lbClean,
      sampleLB, parseFloat?, parseDate?, splitOnChar, allDigits, digitsVal,
      monthOf, List.insertionSort, List.orderedInsert]
    norm_num)

end DCAirbnb
